import Mathlib

/-!
Shallow embedding of `main.py` of the Telegram-IP-Bot repository, together with
theorems settling the behavioural claims about its startup logic, IP poller and
message responder.  Python exceptions are modelled explicitly; external effects
(the HTTP IP lookup and the Telegram send primitive) are oracle parameters.
-/

set_option autoImplicit false

namespace IPBot

/-- Python exception classes raised by the embedded fragments of `main.py`. -/
inductive PyError where
  | attrError
  | typeError
  | keyError
  deriving DecidableEq, Repr

/-! ## Configuration startup (`main.py`, lines 71-171) -/

/-- A JSON field lookup: `none` means the key is absent from the object,
`some none` means the key is present with value `null`, and `some (some v)`
means the key is present with value `v`. -/
abbrev Field (α : Type) := Option (Option α)

/-- The parsed JSON configuration object, restricted to the three fields the
source reads. -/
structure RawConfig where
  bot_token : Field String
  admin_username : Field String
  admin_chat_id : Field Int
  deriving DecidableEq, Repr

/-- `read_field` (lines 127-136): `configuration[key]` raises `KeyError` when
the key is absent, which is caught and turned into `None`; a non-null value
passes the `value != None` guard and is returned; a `null` value falls through
to the final `return None`. -/
def read_field {α : Type} : Field α → Option α
  | none => none
  | some none => none
  | some (some v) => some v

/-- Content of the configuration file after a startup that wrote to it. -/
inductive FileContent where
  /-- File created by `open(path, "w")` with nothing written into it. -/
  | empty
  /-- File holding a serialised JSON object with the three fields. -/
  | json (bot_token : String) (admin_username : String) (admin_chat_id : Int)
  deriving DecidableEq, Repr

/-- The call `json.dump(file, data, indent = 4)` in `write_json` (line 106):
`json.dump` serialises its first positional argument into its second, and the
source passes them swapped, so it tries to serialise the open file object,
which raises `TypeError` before any output is produced. -/
def json_dump_swapped : Except PyError Unit := .error .typeError

/-- `write_json` (lines 100-117): `open(path, "w")` creates (or truncates) the
file, the `json.dump` call raises, the exception is caught and logged, and
`False` is returned.  The result is the success flag paired with the content
the file is left with. -/
def write_json (bot_token admin_username : String) (admin_chat_id : Int) :
    Bool × FileContent :=
  match json_dump_swapped with
  | .error _ => (false, .empty)
  | .ok _ => (true, .json bot_token admin_username admin_chat_id)

/-- Outcome of the startup block. -/
structure StartupResult where
  /-- `some c` means the process exits with code `c` before starting the bot. -/
  exitCode : Option Nat
  /-- `some c` means startup wrote the configuration file, leaving content `c`;
  `none` means the existing file was not touched. -/
  wrote : Option FileContent
  /-- Whether the Telegram listener and the polling loop are started. -/
  started : Bool
  deriving DecidableEq, Repr

/-- The startup block (lines 139-171).  The argument models the filesystem:
`none` is `file_exists` returning false, `some none` is a file that exists but
on which `read_json` fails, and `some (some c)` is a successfully parsed
configuration object `c`. -/
def startup (configFile : Option (Option RawConfig)) : StartupResult :=
  match configFile with
  | some (some configuration) =>
    if read_field configuration.bot_token = none ∨
        read_field configuration.admin_username = none ∨
        read_field configuration.admin_chat_id = none then
      { exitCode := some 1, wrote := none, started := false }
    else
      { exitCode := none, wrote := none, started := true }
  | some none => { exitCode := some 1, wrote := none, started := false }
  | none =>
    let result := write_json "bot token here" "Telegram username here" 12345
    { exitCode := some 0, wrote := some result.2, started := false }

/-! ## IP features (`main.py`, lines 177-232) -/

/-- Initial value of the shared state (line 177): `last_ip = None`. -/
def last_ip_init : Option String := none

/-- `get_ip` (lines 186-209) wraps the HTTP query in `try/except`, so it never
raises: it returns the decoded body on a 200 response and `None` on any other
status or exception.  The HTTP outcome is the oracle parameter `httpOutcome`:
`some s` is a 200 response with body `s`, `none` is any failure. -/
def get_ip (httpOutcome : Option String) : Option String := httpOutcome

/-- One outbound send attempt made through `send_message`. -/
structure Send where
  chat_id : Int
  text : String
  ok : Bool
  deriving DecidableEq, Repr

/-- `send_message` (lines 243-252) wraps `bot.sendMessage` in `try/except` and
returns `True` on success and `False` on any exception, so it never raises.
The transport outcome is the oracle `sendOk`. -/
def send_message (sendOk : Int → String → Bool) (chat_id : Int)
    (message : String) : Bool :=
  sendOk chat_id message

/-- The notification message formatted by `check_ip` (line 223). -/
def newIpMessage (current_ip : String) : String :=
  "New public IP address detected: `" ++ current_ip ++ "`."

/-- `check_ip` (lines 213-232).  Inputs: the configured `admin_chat_id` (the
source guards on `admin_chat_id != None`, so it is optional here), the fetch
outcome for this tick, the send oracle, and the current `last_ip`.  The result
is the new `last_ip` paired with the send attempts made during the tick. -/
def check_ip (admin_chat_id : Option Int) (httpOutcome : Option String)
    (sendOk : Int → String → Bool) (last_ip : Option String) :
    Option String × List Send :=
  match get_ip httpOutcome with
  | none => (last_ip, [])
  | some current_ip =>
    if some current_ip ≠ last_ip then
      let message := newIpMessage current_ip
      match admin_chat_id with
      | none => (some current_ip, [])
      | some cid =>
        let ok := send_message sendOk cid message
        ((if ok then some current_ip else last_ip), [⟨cid, message, ok⟩])
    else
      (last_ip, [])

/-- One iteration of the main loop (lines 293-299): `check_ip()` inside
`try/except`, which logs and swallows any exception.  The `Option PyError`
component is the exception escaping the iteration, which the catch-all makes
`none`.  In this embedding `check_ip` is itself total because each of its
callees catches its own exceptions. -/
def main_loop_tick (admin_chat_id : Option Int)
    (tick : Option String × (Int → String → Bool)) (last_ip : Option String) :
    (Option String × List Send) × Option PyError :=
  (check_ip admin_chat_id tick.1 tick.2 last_ip, none)

/-- Runs the main loop over a list of ticks, each tick carrying its fetch
outcome and its send oracle, starting from `last_ip`.  Returns the final
`last_ip`, the send attempts of all ticks in order, and the per-tick list of
exceptions escaping an iteration. -/
def run_main_loop (admin_chat_id : Option Int)
    (ticks : List (Option String × (Int → String → Bool)))
    (last_ip : Option String) :
    Option String × List Send × List (Option PyError) :=
  match ticks with
  | [] => (last_ip, [], [])
  | t :: rest =>
    let step := main_loop_tick admin_chat_id t last_ip
    let next := run_main_loop admin_chat_id rest step.1.1
    (next.1, step.1.2 ++ next.2.1, step.2 :: next.2.2)

/-! ## Telegram message responder (`main.py`, lines 256-281) -/

/-- An inbound Telegram message as delivered to `telepot_handle`: the fields
`telepot.glance` extracts, plus `msg["from"]["username"]`, which may be absent
from the underlying dictionary. -/
structure InboundMessage where
  content_type : String
  chat_type : String
  chat_id : Int
  from_username : Option String
  deriving DecidableEq, Repr

/-- The attribute access `msg.text` in the logging statement on line 261:
`msg` is a Python `dict` (the message text lives under the key `"text"`), and
`dict` has no attribute `text`, so the access raises `AttributeError`. -/
def msg_attr_text (_msg : InboundMessage) : Except PyError String :=
  .error .attrError

/-- Side effects performed by one run of the body of `telepot_handle`. -/
structure Trace where
  /-- Number of `get_ip` calls performed. -/
  fetches : Nat
  /-- Outbound send attempts, in order. -/
  sends : List Send
  /-- Warnings logged about unauthorized senders. -/
  warnings : Nat
  deriving DecidableEq, Repr

/-- The empty trace: no fetch, no send attempt, no warning. -/
def emptyTrace : Trace := { fetches := 0, sends := [], warnings := 0 }

/-- The failure-notice branch (line 268) calls
`send_message("Failed to obtain IP address.")` with a single argument, while
`send_message` requires two positional arguments, so Python raises `TypeError`
at the call site, before the body of `send_message` can run. -/
def send_message_one_arg : Except PyError Bool := .error .typeError

/-- Body of `telepot_handle` (lines 257-277), without the enclosing
`try/except`: returns the side effects performed together with the exception
propagating out of the body, if any. -/
def telepot_handle_body (admin_username : String) (admin_chat_id : Int)
    (httpOutcome : Option String) (sendOk : Int → String → Bool)
    (msg : InboundMessage) : Trace × Option PyError :=
  match msg.from_username with
  | none => (emptyTrace, some .keyError)
  | some chat_username =>
    match msg_attr_text msg with
    | .error e => (emptyTrace, some e)
    | .ok _ =>
      if msg.content_type = "text" ∧ msg.chat_type = "private" ∧
          chat_username = admin_username ∧ msg.chat_id = admin_chat_id then
        match get_ip httpOutcome with
        | none =>
          match send_message_one_arg with
          | .error e => ({ fetches := 1, sends := [], warnings := 0 }, some e)
          | .ok _ => ({ fetches := 1, sends := [], warnings := 0 }, none)
        | some ip =>
          let message := "IP: `" ++ ip ++ "`."
          let ok := send_message sendOk msg.chat_id message
          ({ fetches := 1, sends := [⟨msg.chat_id, message, ok⟩],
             warnings := 0 }, none)
      else
        let message := "You are not authorized to interact with this bot."
        let ok := send_message sendOk msg.chat_id message
        ({ fetches := 0, sends := [⟨msg.chat_id, message, ok⟩],
           warnings := 1 }, none)

/-- `telepot_handle` (lines 256-281): the body wrapped in a catch-all
`try/except` that logs the exception and returns normally.  The `Bool` records
whether an exception was caught and logged; the final `Option PyError` is the
exception escaping the handler, which the catch-all makes `none`. -/
def telepot_handle (admin_username : String) (admin_chat_id : Int)
    (httpOutcome : Option String) (sendOk : Int → String → Bool)
    (msg : InboundMessage) : Trace × Bool × Option PyError :=
  let body := telepot_handle_body admin_username admin_chat_id httpOutcome
    sendOk msg
  (body.1, body.2.isSome, none)

/-- The listener handling a list of inbound messages in order; each message is
handled by an independent invocation of `telepot_handle`, with its own fetch
outcome and send oracle. -/
def run_listener (admin_username : String) (admin_chat_id : Int)
    (inputs : List ((Option String × (Int → String → Bool)) × InboundMessage)) :
    List (Trace × Bool × Option PyError) :=
  inputs.map (fun i => telepot_handle admin_username admin_chat_id i.1.1 i.1.2 i.2)

/-- The responder seen as a transition on the shared global `last_ip`: the body
of `telepot_handle` contains no `global last_ip` declaration and no assignment
to `last_ip`, so the shared state passes through unchanged. -/
def listener_step (admin_username : String) (admin_chat_id : Int)
    (httpOutcome : Option String) (sendOk : Int → String → Bool)
    (msg : InboundMessage) (last_ip : Option String) :
    Option String × (Trace × Bool × Option PyError) :=
  (last_ip, telepot_handle admin_username admin_chat_id httpOutcome sendOk msg)

end IPBot

namespace IPBot

/-! ## Helper lemmas about `check_ip` -/

/-- A tick whose fetch returns the value already stored in `last_ip` does
nothing. -/
theorem check_ip_no_change (ac : Option Int) (sendOk : Int → String → Bool)
    (v : String) : check_ip ac (some v) sendOk (some v) = (some v, []) := by
  simp [check_ip, get_ip]

/-- A tick with a changed value whose notification send succeeds updates
`last_ip` and records the successful attempt. -/
theorem check_ip_change_send_ok (cid : Int) (v : String)
    (sendOk : Int → String → Bool) (last : Option String)
    (hne : some v ≠ last) (hs : sendOk cid (newIpMessage v) = true) :
    check_ip (some cid) (some v) sendOk last =
      (some v, [⟨cid, newIpMessage v, true⟩]) := by
  simp [check_ip, get_ip, send_message, hne, hs]

/-- A tick with a changed value whose notification send fails keeps `last_ip`
and records the failed attempt. -/
theorem check_ip_change_send_fail (cid : Int) (v : String)
    (sendOk : Int → String → Bool) (last : Option String)
    (hne : some v ≠ last) (hs : sendOk cid (newIpMessage v) = false) :
    check_ip (some cid) (some v) sendOk last =
      (last, [⟨cid, newIpMessage v, false⟩]) := by
  simp [check_ip, get_ip, send_message, hne, hs]

/-- A tick with a changed value and no configured admin chat id updates
`last_ip` without any send attempt. -/
theorem check_ip_change_no_admin (v : String) (sendOk : Int → String → Bool)
    (last : Option String) (hne : some v ≠ last) :
    check_ip none (some v) sendOk last = (some v, []) := by
  simp [check_ip, get_ip, hne]

/-- On any tick, the new `last_ip` is either the old one or the value just
returned by a successful fetch. -/
theorem check_ip_result_cases (ac : Option Int) (httpOutcome : Option String)
    (sendOk : Int → String → Bool) (last : Option String) :
    (check_ip ac httpOutcome sendOk last).1 = last ∨
      ∃ v, get_ip httpOutcome = some v ∧
        (check_ip ac httpOutcome sendOk last).1 = some v := by
  cases httpOutcome with
  | none => exact Or.inl rfl
  | some v =>
    by_cases h : (some v : Option String) = last
    · subst h
      exact Or.inl (by simp [check_ip, get_ip])
    · cases ac with
      | none => exact Or.inr ⟨v, rfl, by simp [check_ip, get_ip, h]⟩
      | some cid =>
        cases hs : sendOk cid (newIpMessage v) with
        | true =>
          exact Or.inr ⟨v, rfl, by simp [check_ip, get_ip, send_message, h, hs]⟩
        | false =>
          exact Or.inl (by simp [check_ip, get_ip, send_message, h, hs])

end IPBot

namespace IPBot

/-! ## Claim theorems -/

/-- C1: code evaluation at the claimed scenario.  A plain-text private-chat
message whose sender username and chat id match the configuration, with the IP
fetch set up to succeed with `"1.2.3.4"`, produces the empty trace: no fetch is
performed and nothing is sent, because line 261 evaluates `msg.text` on a
`dict`, raising `AttributeError`, which the enclosing `try/except` swallows.
This contradicts the claimed reply of `"IP: <value>."` to the admin chat. -/
theorem c1_authorized_request_sends_no_reply :
    telepot_handle "admin" 42 (some "1.2.3.4") (fun _ _ => true)
      { content_type := "text", chat_type := "private", chat_id := 42,
        from_username := some "admin" } = (emptyTrace, true, none) := rfl

/-- C2: code evaluation at the claimed scenario.  A message failing the
authorization check (username mismatch, all else matching) produces the empty
trace: no rejection message is sent and no warning is logged, because the
handler raises `AttributeError` at line 261 before reaching the authorization
branch.  Only the absence of an IP fetch agrees with the claim. -/
theorem c2_unauthorized_message_gets_no_rejection :
    telepot_handle "admin" 42 (some "1.2.3.4") (fun _ _ => true)
      { content_type := "text", chat_type := "private", chat_id := 42,
        from_username := some "mallory" } = (emptyTrace, true, none) := rfl

/-- C6: code evaluation at the claimed scenario.  An authorized message with a
failing IP fetch produces the empty trace: no failure notice is sent to any
chat.  The handler raises `AttributeError` at line 261; independently of that,
the failure branch itself calls `send_message` with a single argument, which
would raise `TypeError` at the call site.  This contradicts the claimed
failure notice to the requesting chat id. -/
theorem c6_fetch_failure_sends_no_notice :
    telepot_handle "admin" 42 none (fun _ _ => true)
      { content_type := "text", chat_type := "private", chat_id := 42,
        from_username := some "admin" } = (emptyTrace, true, none) := rfl

/-- C7: code evaluation at the claimed scenario.  With the configuration file
absent, startup exits with code 0 without starting the poller or the listener,
but the file it leaves behind is empty: `write_json` passes the arguments of
`json.dump` swapped, the dump raises, the exception is caught, and the file —
already created by `open(path, "w")` — never receives the template with the
placeholder values.  Only the exit code and the not-started parts of the claim
agree with the code. -/
theorem c7_missing_config_creates_empty_file :
    startup none =
      { exitCode := some 0, wrote := some .empty, started := false } := rfl

/-- C8: if the configuration file exists and parses but any of the three
required fields is missing or null, the process exits with code 1, does not
write to the file, and does not start the poller or the listener. -/
theorem c8_missing_required_field_exits_one (cfg : RawConfig)
    (h : read_field cfg.bot_token = none ∨
      read_field cfg.admin_username = none ∨
      read_field cfg.admin_chat_id = none) :
    startup (some (some cfg)) =
      { exitCode := some 1, wrote := none, started := false } := by
  simp only [startup]
  rw [if_pos h]

/-- C8 witness: a configuration with `admin_username` missing exits with code
1 and no template overwrite. -/
theorem c8_missing_required_field_exits_one_witness :
    startup (some (some { bot_token := some (some "token"),
                          admin_username := none,
                          admin_chat_id := some (some 42) })) =
      { exitCode := some 1, wrote := none, started := false } :=
  c8_missing_required_field_exits_one _ (Or.inr (Or.inl rfl))

/-- C5: on a tick whose IP fetch fails, `last_ip` is unchanged and no send
attempt is made. -/
theorem c5_fetch_failure_leaves_state_unchanged (admin_chat_id : Option Int)
    (sendOk : Int → String → Bool) (last_ip : Option String) :
    check_ip admin_chat_id none sendOk last_ip = (last_ip, []) := rfl

end IPBot

namespace IPBot

/-- C3 counterexample: the fetch-result sequence `[A, A, B, B, A]` of the
claim, with `A = "1.2.3.4"`, `B = "5.6.7.8"`, admin chat id 7, every fetch
succeeding and every send succeeding, run from the initial poller state
`last_ip = None`: three notifications are sent, not two, because the very
first tick already differs from the unset `last_ip` and notifies with `A`. -/
theorem c3_counterexample_three_notifications_from_start :
    (run_main_loop (some 7)
      [(some "1.2.3.4", fun _ _ => true), (some "1.2.3.4", fun _ _ => true),
       (some "5.6.7.8", fun _ _ => true), (some "5.6.7.8", fun _ _ => true),
       (some "1.2.3.4", fun _ _ => true)] none).2.1 =
      [⟨7, newIpMessage "1.2.3.4", true⟩, ⟨7, newIpMessage "5.6.7.8", true⟩,
       ⟨7, newIpMessage "1.2.3.4", true⟩] ∧
    ¬ (run_main_loop (some 7)
      [(some "1.2.3.4", fun _ _ => true), (some "1.2.3.4", fun _ _ => true),
       (some "5.6.7.8", fun _ _ => true), (some "5.6.7.8", fun _ _ => true),
       (some "1.2.3.4", fun _ _ => true)] none).2.1.length = 2 :=
  ⟨rfl, by decide⟩

/-- C3 (amended): if `last_ip` equals `A` when the five-tick window begins,
and the fetch results across the window are `[A, A, B, B, A]` with `A ≠ B`,
every fetch succeeding and every send succeeding, then exactly two
notifications are sent — one on the transition to `B` and one on the
transition back to `A` — each embedding the new value, and no tick raises. -/
theorem c3_amended_two_notifications_from_steady_state (A B : String)
    (cid : Int) (sendOk : Int → String → Bool) (hAB : A ≠ B)
    (hsend : ∀ c m, sendOk c m = true) :
    run_main_loop (some cid)
      [(some A, sendOk), (some A, sendOk), (some B, sendOk), (some B, sendOk),
       (some A, sendOk)] (some A) =
      (some A, [⟨cid, newIpMessage B, true⟩, ⟨cid, newIpMessage A, true⟩],
        [none, none, none, none, none]) := by
  have hBA : B ≠ A := Ne.symm hAB
  have h1 : check_ip (some cid) (some A) sendOk (some A) = (some A, []) :=
    check_ip_no_change _ _ _
  have h3 : check_ip (some cid) (some B) sendOk (some A) =
      (some B, [⟨cid, newIpMessage B, true⟩]) :=
    check_ip_change_send_ok _ _ _ _ (by simp [hBA]) (hsend _ _)
  have h4 : check_ip (some cid) (some B) sendOk (some B) = (some B, []) :=
    check_ip_no_change _ _ _
  have h5 : check_ip (some cid) (some A) sendOk (some B) =
      (some A, [⟨cid, newIpMessage A, true⟩]) :=
    check_ip_change_send_ok _ _ _ _ (by simp [hAB]) (hsend _ _)
  simp [run_main_loop, main_loop_tick, h1, h3, h4, h5]

/-- C3 witness for the amended claim, at `A = "1.2.3.4"`, `B = "5.6.7.8"`,
admin chat id 7 and an always-succeeding send oracle. -/
theorem c3_amended_witness :
    run_main_loop (some 7)
      [(some "1.2.3.4", fun _ _ => true), (some "1.2.3.4", fun _ _ => true),
       (some "5.6.7.8", fun _ _ => true), (some "5.6.7.8", fun _ _ => true),
       (some "1.2.3.4", fun _ _ => true)] (some "1.2.3.4") =
      (some "1.2.3.4",
        [⟨7, newIpMessage "5.6.7.8", true⟩, ⟨7, newIpMessage "1.2.3.4", true⟩],
        [none, none, none, none, none]) :=
  c3_amended_two_notifications_from_steady_state "1.2.3.4" "5.6.7.8" 7
    (fun _ _ => true) (by decide) (fun _ _ => rfl)

/-- C4: on a tick whose fetch returns a value `v` different from `last_ip` and
whose notification send to the configured admin chat fails, `last_ip` keeps
its old value and the failed attempt is recorded; a following tick fetching
the same `v` with a succeeding send attempts the notification again and
updates `last_ip` to `v`; and with no admin chat id configured the update
happens with no send attempt. -/
theorem c4_send_failure_preserves_last_ip (cid : Int) (v : String)
    (last : Option String) (sendOk1 sendOk2 : Int → String → Bool)
    (hne : some v ≠ last) (hfail : sendOk1 cid (newIpMessage v) = false)
    (hok : sendOk2 cid (newIpMessage v) = true) :
    check_ip (some cid) (some v) sendOk1 last =
      (last, [⟨cid, newIpMessage v, false⟩]) ∧
    check_ip (some cid) (some v) sendOk2
        (check_ip (some cid) (some v) sendOk1 last).1 =
      (some v, [⟨cid, newIpMessage v, true⟩]) ∧
    check_ip none (some v) sendOk1 last = (some v, []) := by
  have h1 := check_ip_change_send_fail cid v sendOk1 last hne hfail
  refine ⟨h1, ?_, check_ip_change_no_admin v sendOk1 last hne⟩
  rw [h1]
  exact check_ip_change_send_ok cid v sendOk2 last hne hok

/-- C4 witness: the change from `None` to `"1.2.3.4"` of the claim, with a
failing send followed by a succeeding one, at admin chat id 7. -/
theorem c4_send_failure_preserves_last_ip_witness :
    check_ip (some 7) (some "1.2.3.4") (fun _ _ => false) none =
      (none, [⟨7, newIpMessage "1.2.3.4", false⟩]) ∧
    check_ip (some 7) (some "1.2.3.4") (fun _ _ => true)
        (check_ip (some 7) (some "1.2.3.4") (fun _ _ => false) none).1 =
      (some "1.2.3.4", [⟨7, newIpMessage "1.2.3.4", true⟩]) ∧
    check_ip none (some "1.2.3.4") (fun _ _ => false) none =
      (some "1.2.3.4", []) :=
  c4_send_failure_preserves_last_ip 7 "1.2.3.4" none (fun _ _ => false)
    (fun _ _ => true) (Option.some_ne_none _) rfl rfl

/-- C9: no exception escapes the poller loop or the message handler.  The
handler never lets an exception out; a loop iteration never lets an exception
out; running the loop over any tick sequence swallows every per-tick exception
and processes every tick; and the listener processes every message of any
inbound sequence. -/
theorem c9_no_exception_escapes (admin_username : String) (admin_chat_id : Int)
    (ac : Option Int) (ticks : List (Option String × (Int → String → Bool)))
    (last : Option String)
    (inputs : List ((Option String × (Int → String → Bool)) × InboundMessage))
    (httpOutcome : Option String) (sendOk : Int → String → Bool)
    (msg : InboundMessage) :
    (telepot_handle admin_username admin_chat_id httpOutcome sendOk msg).2.2 =
      none ∧
    (main_loop_tick ac (httpOutcome, sendOk) last).2 = none ∧
    ((run_main_loop ac ticks last).2.2.all Option.isNone) = true ∧
    (run_main_loop ac ticks last).2.2.length = ticks.length ∧
    (run_listener admin_username admin_chat_id inputs).length =
      inputs.length := by
  refine ⟨rfl, rfl, ?_, ?_, by simp [run_listener]⟩
  · induction ticks generalizing last with
    | nil => rfl
    | cons t rest ih => simp [run_main_loop, main_loop_tick, ih]
  · induction ticks generalizing last with
    | nil => rfl
    | cons t rest ih => simp [run_main_loop, ih]

/-- C10: `last_ip` starts as `None`; a poller tick either leaves it unchanged
or sets it to the value just returned by a successful fetch; it is never reset
from a set value back to `None`; and the message responder never writes the
shared state. -/
theorem c10_last_ip_monotone (ac : Option Int) (httpOutcome : Option String)
    (sendOk : Int → String → Bool) (last : Option String)
    (admin_username : String) (admin_chat_id : Int) (msg : InboundMessage) :
    last_ip_init = none ∧
    ((check_ip ac httpOutcome sendOk last).1 = last ∨
      ∃ v, get_ip httpOutcome = some v ∧
        (check_ip ac httpOutcome sendOk last).1 = some v) ∧
    ((check_ip ac httpOutcome sendOk last).1 = none → last = none) ∧
    (listener_step admin_username admin_chat_id httpOutcome sendOk msg
      last).1 = last := by
  refine ⟨rfl, check_ip_result_cases ac httpOutcome sendOk last, ?_, rfl⟩
  intro h0
  rcases check_ip_result_cases ac httpOutcome sendOk last with h | ⟨v, _, hv⟩
  · rw [← h]
    exact h0
  · rw [hv] at h0
    exact absurd h0 (Option.some_ne_none v)

/-- C10 witness, at a change from `None` to `"1.2.3.4"` with admin chat id 7,
an always-succeeding send oracle, and an authorized inbound message. -/
theorem c10_last_ip_monotone_witness :
    last_ip_init = none ∧
    ((check_ip (some 7) (some "1.2.3.4") (fun _ _ => true) none).1 = none ∨
      ∃ v, get_ip (some "1.2.3.4") = some v ∧
        (check_ip (some 7) (some "1.2.3.4") (fun _ _ => true) none).1 =
          some v) ∧
    ((check_ip (some 7) (some "1.2.3.4") (fun _ _ => true) none).1 = none →
      (none : Option String) = none) ∧
    (listener_step "admin" 42 (some "1.2.3.4") (fun _ _ => true)
      { content_type := "text", chat_type := "private", chat_id := 42,
        from_username := some "admin" } none).1 = none :=
  c10_last_ip_monotone (some 7) (some "1.2.3.4") (fun _ _ => true) none
    "admin" 42
    { content_type := "text", chat_type := "private", chat_id := 42,
      from_username := some "admin" }

end IPBot
